import Mathlib

/-!
Shallow embedding of `tornado_swagger/swagger.py`: the epytext tag-dispatch
engine (`DocParser`), the `operation` decorator and the `model` decorator
with its process-wide model registry.

Python dictionaries that hold descriptor fields are modelled as ordered
association lists (`List (κ × α)`): `dget` is `d.get(k)` / `k in d`,
`dset` is `d[k] = v` (overwrite in place, new keys appended at the end),
`dupdate` is `d.update({...})` and `dsetdefault` is `d.setdefault(k, v)`.
Python values stored in those dictionaries are modelled by the inductive
`Py`; a Python function object is a `Py.func fid` reference into an
explicit heap (`World`) so that object identity of decorator wrappers can
be talked about.

The epydoc markup library is external to the repository; a parsed field
body is abstracted as `Body`: its `to_plaintext` rendering plus the result
of the `EpytextParser` inline-span extraction for the `code` and `link`
tags (`_parse_epytext_para` in the source).  A docstring, after
`epydoc.markup.parse` + `split_fields`, is abstracted as the resulting
list of `(tag, arg, body)` fields.
-/

namespace TornadoSwagger

/-- A Python value as stored in the descriptor dictionaries of
`swagger.py`: `None`, strings, booleans, integers (constructor default
values), function-object references, and nested dictionaries (the
`items` sub-dictionary built by `_parse_ptype`). -/
inductive Py where
  | pynone : Py
  | str (s : String) : Py
  | bool (b : Bool) : Py
  | int (n : Int) : Py
  | func (fid : Nat) : Py
  | dict (entries : List (String × Py)) : Py
deriving Repr

/-- `Py.ofOpt` embeds an optional string the way Python stores it:
`None` stays `None`, a string stays a string. -/
def Py.ofOpt : Option String → Py
  | Option.none => Py.pynone
  | some s => Py.str s

/-- Python `d.get(k)` on an ordered dictionary (first matching key). -/
def dget {κ : Type} [DecidableEq κ] {α : Type} : List (κ × α) → κ → Option α
  | [], _ => Option.none
  | (k0, v0) :: rest, k => if k0 = k then some v0 else dget rest k

/-- Python `d[k] = v`: overwrite the first matching key in place,
append at the end when the key is new. -/
def dset {κ : Type} [DecidableEq κ] {α : Type} : List (κ × α) → κ → α → List (κ × α)
  | [], k, v => [(k, v)]
  | (k0, v0) :: rest, k, v => if k0 = k then (k0, v) :: rest else (k0, v0) :: dset rest k v

/-- Python `d.update(kvs)`: assign each pair in order. -/
def dupdate {κ : Type} [DecidableEq κ] {α : Type} (d : List (κ × α)) (kvs : List (κ × α)) :
    List (κ × α) :=
  kvs.foldl (fun acc kv => dset acc kv.1 kv.2) d

/-- Python `d.setdefault(k, v)`: insert `v` at the end only when `k` is
absent; an existing entry is kept unchanged. -/
def dsetdefault {κ : Type} [DecidableEq κ] {α : Type} (d : List (κ × α)) (k : κ) (v : α) :
    List (κ × α) :=
  match dget d k with
  | some _ => d
  | Option.none => d ++ [(k, v)]

/-- The idiom `d.setdefault(k, {}).update(kvs)` used by every parameter /
property handler: fetch (or create empty) the entry dictionary for `k`
and update it in place. -/
def dsetdefaultUpdate {κ : Type} [DecidableEq κ] (d : List (κ × List (String × Py))) (k : κ)
    (kvs : List (String × Py)) : List (κ × List (String × Py)) :=
  match dget d k with
  | some e => dset d k (dupdate e kvs)
  | Option.none => d ++ [(k, dupdate [] kvs)]

/-- Abstraction of an epydoc field body (a `ParsedDocstring` node):
its `to_plaintext(None)` rendering, and the data the `EpytextParser`
HTML scan extracts for a `code` resp. `link` inline span (absent when
the body holds no such span). -/
structure Body where
  plaintext : String
  codeSpan : Option String
  linkSpan : Option String
deriving DecidableEq, Repr

/-- One parsed docstring field: `field.tag()`, `field.arg()` (may be
`None`), `field.body()` (may be absent). -/
structure Field where
  tag : String
  arg : Option String
  body : Option Body
deriving DecidableEq, Repr

/-- Python `str.strip` (used as `.strip()` by `_get_body`): drop leading
and trailing whitespace.  Defined by structural recursion over the
character list so that it evaluates inside the kernel. -/
def stripLeftChars : List Char → List Char
  | [] => []
  | c :: cs => if c.isWhitespace then stripLeftChars cs else c :: cs

/-- Python `s.strip()`. -/
def pyStrip (s : String) : String :=
  ⟨(stripLeftChars ((stripLeftChars s.data).reverse)).reverse⟩

/-- `DocParser._get_body`: `body.to_plaintext(None).strip() if body else body`. -/
def getBody (body : Option Body) : Option String :=
  match body with
  | Option.none => Option.none
  | some b => some (pyStrip b.plaintext)

/-- `DocParser._parse_epytext_para(tag, body)`: feed `str(body)` to an
`EpytextParser(tag)` and return the extracted span data; `None` when the
body is absent or holds no such span.  Only the tags `code` and `link`
are ever requested by the source. -/
def parseEpytextPara (tag : String) (body : Option Body) : Option String :=
  match body with
  | Option.none => Option.none
  | some b => if tag = "code" then b.codeSpan else if tag = "link" then b.linkSpan else Option.none

/-- `DocParser._sanitize_doc`: replace embedded newlines by spaces
(`comment.replace('\n', ' ') if comment else comment`). -/
def sanitizeDoc : Option String → Option String
  | Option.none => Option.none
  | some c => if c = "" then some c else some (c.replace "\n" " ")

/-- The `DocParser` accumulator state: `notes`, `summary`,
`responseClasses`, `responseMessages`, `params`, `properties`
(the last four are Python `OrderedDict` / `list`).  `params` and
`properties` are keyed by the field argument, which may be `None`. -/
structure DocState where
  notes : Option String := Option.none
  summary : Option String := Option.none
  responseClasses : List (String × Option String) := []
  responseMessages : List (List (String × Py)) := []
  params : List (Option String × List (String × Py)) := []
  properties : List (Option String × List (String × Py)) := []
deriving Repr

/-- `DocParser._parse_param`: upsert `name` / `description`, then default
`paramType` to `"query"` when the entry has no `paramType` key yet. -/
def parseParam (st : DocState) (arg : Option String) (body : Option Body) : DocState :=
  let b := getBody body
  let params := (dsetdefaultUpdate st.params arg
      [("name", Py.ofOpt arg), ("description", Py.ofOpt b)])
  let params :=
    match dget params arg with
    | some e =>
        match dget e "paramType" with
        | some _ => params
        | Option.none => dset params arg (dset e "paramType" (Py.str "query"))
    | Option.none => params
  { st with params := params }

/-- `DocParser._parse_type`: upsert `name` / `dataType`. -/
def parseType (st : DocState) (arg : Option String) (body : Option Body) : DocState :=
  { st with params := (dsetdefaultUpdate st.params arg
      [("name", Py.ofOpt arg), ("dataType", Py.ofOpt (getBody body))]) }

/-- `DocParser._parse_in`: upsert `name` / `paramType`. -/
def parseIn (st : DocState) (arg : Option String) (body : Option Body) : DocState :=
  { st with params := (dsetdefaultUpdate st.params arg
      [("name", Py.ofOpt arg), ("paramType", Py.ofOpt (getBody body))]) }

/-- `DocParser._parse_required`: `required = False if body in ['False', 'false'] else True`. -/
def parseRequired (st : DocState) (arg : Option String) (body : Option Body) : DocState :=
  let b := getBody body
  { st with params := (dsetdefaultUpdate st.params arg
      [("name", Py.ofOpt arg),
       ("required", Py.bool (if b = some "False" ∨ b = some "false" then false else true))]) }

/-- `DocParser._parse_rtype`: when the argument is truthy, record
`responseClasses[arg] = body`. -/
def parseRtype (st : DocState) (arg : Option String) (body : Option Body) : DocState :=
  let b := getBody body
  match arg with
  | Option.none => st
  | some a =>
      if a = "" then st
      else { st with responseClasses := dset st.responseClasses a b }

/-- `DocParser._parse_property`: upsert `description`. -/
def parseProperty (st : DocState) (arg : Option String) (body : Option Body) : DocState :=
  { st with properties := (dsetdefaultUpdate st.properties arg
      [("description", Py.ofOpt (getBody body))]) }

/-- `DocParser._parse_ptype`: a body with no `code` span sets `type` to
the body plaintext; a `code` span equal to `"list"` sets
`type = "array"` and `items = {'type': link}`; any other `code` span is
ignored. -/
def parsePtype (st : DocState) (arg : Option String) (body : Option Body) : DocState :=
  let code := parseEpytextPara "code" body
  let link := parseEpytextPara "link" body
  let b := getBody body
  match code with
  | Option.none =>
      { st with properties := dsetdefaultUpdate st.properties arg [("type", Py.ofOpt b)] }
  | some c =>
      if c = "list" then
        { st with properties := (dsetdefaultUpdate st.properties arg
            [("type", Py.str "array"), ("items", Py.dict [("type", Py.ofOpt link)])]) }
      else st

/-- `DocParser._parse_return` (also bound to the `raise` tag): build
`{'code': arg, 'message': body}`, add `responseModel` when
`responseClasses.get(arg)` is truthy, and append to `responseMessages`. -/
def parseReturn (st : DocState) (arg : Option String) (body : Option Body) : DocState :=
  let b := getBody body
  let msg : List (String × Py) := [("code", Py.ofOpt arg), ("message", Py.ofOpt b)]
  let rc : Option (Option String) :=
    match arg with
    | Option.none => Option.none
    | some a => dget st.responseClasses a
  let msg :=
    match rc with
    | some (some s) => if s = "" then msg else dset msg "responseModel" (Py.str s)
    | _ => msg
  { st with responseMessages := st.responseMessages ++ [msg] }

/-- `DocParser._parse_notes`. -/
def parseNotes (st : DocState) (body : Option Body) : DocState :=
  { st with notes := sanitizeDoc (getBody body) }

/-- `DocParser._parse_description`. -/
def parseDescription (st : DocState) (body : Option Body) : DocState :=
  { st with summary := sanitizeDoc (getBody body) }

/-- `DocParser._get_parser` composed with the handler call: dispatch one
field to the handler selected by its tag; unknown tags are a no-op
(`_not_supported`). -/
def dispatchField (st : DocState) (f : Field) : DocState :=
  if f.tag = "param" then parseParam st f.arg f.body
  else if f.tag = "type" then parseType st f.arg f.body
  else if f.tag = "in" then parseIn st f.arg f.body
  else if f.tag = "required" then parseRequired st f.arg f.body
  else if f.tag = "rtype" then parseRtype st f.arg f.body
  else if f.tag = "property" then parseProperty st f.arg f.body
  else if f.tag = "ptype" then parsePtype st f.arg f.body
  else if f.tag = "return" ∨ f.tag = "raise" then parseReturn st f.arg f.body
  else if f.tag = "notes" then parseNotes st f.body
  else if f.tag = "description" then parseDescription st f.body
  else st

/-- `DocParser.parse_docstring`: absent text is a no-op; otherwise the
parsed fields are dispatched in document order. -/
def parseDocstring (st : DocState) (text : Option (List Field)) : DocState :=
  match text with
  | Option.none => st
  | some fs => fs.foldl dispatchField st

/-- The result of `inspect.getargspec`: positional argument names and the
trailing default values. -/
structure Argspec where
  args : List String
  defaults : List Py
deriving Repr

/-- The mutable state of an `operation` decorator instance:
the `DocParser` accumulator plus `nickname`, `func` (the built flag,
holding a heap reference to the original callable once decoration has
happened), `func_args` and the captured `__name__`. -/
structure OpState where
  nickname : Option String := Option.none
  func : Option Nat := Option.none
  funcArgs : List String := []
  opName : Option String := Option.none
  ds : DocState := {}

/-- A Python function object: `__name__`, its `getargspec`, its
`inspect.getdoc` result (already parsed into fields; `None` for no
docstring), its call behaviour, and the `rest_api` attribute the
`operation` decorator attaches to its wrapper. -/
structure FuncObj where
  name : String
  argspec : Argspec
  docFields : Option (List Field) := Option.none
  call : List Py → Py
  rest_api : Option OpState := Option.none

/-- The heap of function objects, giving wrappers an identity:
`Py.func fid` values point into `heap`; `next` is the next fresh id. -/
structure World where
  heap : List (Nat × FuncObj)
  next : Nat

/-- `operation._parse_args`: drop a `self` argument if present, mark the
trailing defaulted names, and seed (via `setdefault`, so existing
entries win) one parameter entry per argument with
`paramType = "path"`, `dataType = "string"`. -/
def opParseArgs (st : OpState) (spec : Argspec) : OpState :=
  let args := if "self" ∈ spec.args then spec.args.erase "self" else spec.args
  let defaults : List String :=
    if spec.defaults.isEmpty then [] else args.drop (args.length - spec.defaults.length)
  let ds := args.foldl (fun d arg =>
      { d with params := (dsetdefault d.params (some arg)
          [("name", Py.str arg),
           ("required", Py.bool (if arg ∈ defaults then false else true)),
           ("paramType", Py.str "path"),
           ("dataType", Py.str "string")]) }) st.ds
  { st with ds := ds, funcArgs := args }

/-- `operation._parse_operation`: set the built flag `self.func`, copy
`__name__`, introspect the signature, then parse the docstring. -/
def opParseOperation (st : OpState) (fid : Nat) (f : FuncObj) : OpState :=
  let st := { st with func := some fid, opName := some f.name }
  let st := opParseArgs st f.argspec
  { st with ds := parseDocstring st.ds f.docFields }

/-- The `@wraps(func)`-decorated `__wrapper__` closure allocated by a
first decoration: it copies `func.__name__` / `__doc__`, calls
`self.func` (the original callable, which `_parse_operation` has just
stored and which is never reassigned) on its own arguments, and carries
the operation instance as its `rest_api` attribute. -/
def mkWrapper (st1 : OpState) (f : FuncObj) : FuncObj :=
  { name := f.name, argspec := { args := [], defaults := [] }, docFields := f.docFields,
    call := fun inArgs => f.call inArgs, rest_api := some st1 }

/-- `operation.__call__`: when `self.func` is already set, forward the
call to the stored function (`return self.func(*args, **kwds)`);
otherwise decorate `args[0]`: parse it, allocate the `@wraps`-preserving
`__wrapper__` (which invokes `self.func`, i.e. the original callable,
unchanged) in the heap, attach `rest_api`, and return the wrapper
reference.  The error branches model the exceptions Python would raise
on an empty argument tuple or a non-function argument. -/
def operationCall (st : OpState) (w : World) (args : List Py) :
    OpState × World × Except String Py :=
  match st.func with
  | some fid =>
      match dget w.heap fid with
      | some f => (st, w, Except.ok (f.call args))
      | Option.none => (st, w, Except.error "missing function object")
  | Option.none =>
      match args with
      | [] => (st, w, Except.error "IndexError: tuple index out of range")
      | Py.func fid :: _ =>
          match dget w.heap fid with
          | some f =>
              let st' := opParseOperation st fid f
              (st', { heap := w.heap ++ [(w.next, mkWrapper st' f)], next := w.next + 1 },
               Except.ok (Py.func w.next))
          | Option.none => (st, w, Except.error "missing function object")
      | _ :: _ => (st, w, Except.error "TypeError: argument is not a function")

/-- A Python class object as the `model` decorator sees it: `__name__`,
whether `'__init__' in dir(cls)`, the `getargspec` of its constructor
(`Except.error` when introspection raises), and its parsed docstring. -/
structure ClassObj where
  name : String
  hasInit : Bool
  initSpec : Except String Argspec
  docFields : Option (List Field) := Option.none

/-- The mutable state of a `model` decorator instance: the `DocParser`
accumulator plus the `required` list, the built flag `cls`, and the
descriptor `id`. -/
structure ModelState where
  required : List String := []
  cls : Option ClassObj := Option.none
  id : Option String := Option.none
  ds : DocState := {}

/-- One iteration of the first `for` loop of `model._parse_args`:
append the name to `self.required` and seed a `{type: "string"}`
property for it (`setdefault`: an existing property entry wins). -/
def seedRequired (s : ModelState) (arg : String) : ModelState :=
  { s with required := s.required ++ [arg],
           ds := { s.ds with properties := (dsetdefault s.ds.properties (some arg)
               [("type", Py.str "string")]) } }

/-- One iteration of the second `for` loop of `model._parse_args`: seed
a `{type: "string", default: v}` property for a defaulted name. -/
def seedDefault (s : ModelState) (p : String × Py) : ModelState :=
  { s with ds := { s.ds with properties := (dsetdefault s.ds.properties (some p.1)
      [("type", Py.str "string"), ("default", p.2)]) } }

/-- `model._parse_args`: `argspec.args.remove("self")` (raising when no
receiver parameter is present), zip the trailing names with the default
values, then seed the `required` list and the properties via the two
loops. -/
def modelParseArgs (st : ModelState) (spec : Argspec) : Except String ModelState :=
  if "self" ∈ spec.args then
    let args := spec.args.erase "self"
    let defaults : List (String × Py) :=
      if spec.defaults.isEmpty then []
      else (args.drop (args.length - spec.defaults.length)).zip spec.defaults
    let requiredCount := args.length - defaults.length
    let st := (args.take requiredCount).foldl seedRequired st
    let st := defaults.foldl seedDefault st
    Except.ok st
  else Except.error "ValueError: self not in list"

/-- `model._parse_model`: set `id` and the built flag `cls`, introspect
the constructor when the class has one (an introspection error
propagates, leaving the registry untouched), parse the docstring, and
finally append the built descriptor to the process-wide `models`
registry. -/
def modelParseModel (st : ModelState) (reg : List ModelState) (cls : ClassObj) :
    ModelState × List ModelState × Except String Unit :=
  let st := { st with id := some cls.name, cls := some cls }
  if cls.hasInit then
    match cls.initSpec with
    | Except.error e => (st, reg, Except.error e)
    | Except.ok spec =>
        match modelParseArgs st spec with
        | Except.error e => (st, reg, Except.error e)
        | Except.ok st1 =>
            let st2 := { st1 with ds := parseDocstring st1.ds cls.docFields }
            (st2, reg ++ [st2], Except.ok ())
  else
    let st1 := { st with ds := parseDocstring st.ds cls.docFields }
    (st1, reg ++ [st1], Except.ok ())

/-- `model.__call__`: when the built flag `self.cls` is set, return the
stored class and change nothing; otherwise parse `args[0]` (which also
registers the descriptor) and return the class. -/
def modelCall (st : ModelState) (reg : List ModelState) (args : List ClassObj) :
    ModelState × List ModelState × Except String ClassObj :=
  match st.cls with
  | some c => (st, reg, Except.ok c)
  | Option.none =>
      match args with
      | [] => (st, reg, Except.error "IndexError: tuple index out of range")
      | cls :: _ =>
          match modelParseModel st reg cls with
          | (st1, reg1, Except.ok _) => (st1, reg1, Except.ok cls)
          | (st1, reg1, Except.error e) => (st1, reg1, Except.error e)

/-! ### Concrete objects used by the closed counterexamples and witnesses -/

/-- A plain field body: some plaintext, no inline spans.  Used by the
concrete counterexamples and witnesses. -/
def bodyOf (s : String) : Body :=
  { plaintext := s, codeSpan := Option.none, linkSpan := Option.none }

/-- The accumulator state after an `rtype 200: Widget` field, for the
C3 witness. -/
def rcSt : DocState := { responseClasses := [("200", some "Widget")] }

/-- The field body used for the C7 witness: a `code` span `list` and a
`link` span `Widget`. -/
def listWidgetBody : Body :=
  { plaintext := "ignored", codeSpan := some "list", linkSpan := some "Widget" }

/-- The field body used for the C10 witness: a `code` span `dict`,
which is not `list`. -/
def dictSpanBody : Body :=
  { plaintext := "x", codeSpan := some "dict", linkSpan := Option.none }

/-- The callable used by the closed `operation` scenarios: a
one-argument function that always returns `42`, with no docstring. -/
def f0 : FuncObj :=
  { name := "f", argspec := { args := ["x"], defaults := [] }, call := fun _ => Py.int 42 }

/-- A heap holding just `f0` at id `0`. -/
def w0 : World := { heap := [(0, f0)], next := 1 }

/-- The class used by the model witnesses: `class Widget` with
`__init__(self, a, b=5)` and no docstring. -/
def widgetClass : ClassObj :=
  { name := "Widget", hasInit := true,
    initSpec := Except.ok { args := ["self", "a", "b"], defaults := [Py.int 5] } }

/-- A class whose constructor cannot be introspected, for the C9
witness. -/
def badClass : ClassObj :=
  { name := "Bad", hasInit := true,
    initSpec := Except.error "TypeError: unsupported callable type" }

/-- A `properties` accumulator holding the entry seeded for a defaulted
constructor parameter `b=5`, for the C8 witness. -/
def seededSt : DocState :=
  { properties := [(some "b", [("type", Py.str "string"), ("default", Py.int 5)])] }

/-! ### Ordered-dictionary lemmas -/

theorem dget_dset_self {κ : Type} [DecidableEq κ] {α : Type} (d : List (κ × α)) (k : κ) (v : α) :
    dget (dset d k v) k = some v := by
  induction d with
  | nil => simp [dset, dget]
  | cons p rest ih =>
      obtain ⟨k0, v0⟩ := p
      by_cases h : k0 = k
      · simp [dset, dget, h]
      · simp [dset, dget, h, ih]

theorem dget_dset_ne {κ : Type} [DecidableEq κ] {α : Type} (d : List (κ × α)) (k k' : κ)
    (v : α) (h : k' ≠ k) : dget (dset d k v) k' = dget d k' := by
  induction d with
  | nil => simp [dset, dget, Ne.symm h]
  | cons p rest ih =>
      obtain ⟨k0, v0⟩ := p
      by_cases h0 : k0 = k
      · subst h0
        simp [dset, dget, Ne.symm h]
      · simp only [dset, if_neg h0]
        by_cases h1 : k0 = k'
        · simp [dget, h1]
        · simp [dget, h1, ih]

theorem dget_append_right {κ : Type} [DecidableEq κ] {α : Type} (d e : List (κ × α)) (k : κ)
    (h : dget d k = Option.none) : dget (d ++ e) k = dget e k := by
  induction d with
  | nil => simp
  | cons p rest ih =>
      obtain ⟨k0, v0⟩ := p
      by_cases h0 : k0 = k
      · simp [dget, h0] at h
      · simp only [dget, if_neg h0] at h
        simpa [dget, h0] using ih h

theorem dget_dsetdefault_self {κ : Type} [DecidableEq κ] {α : Type} (d : List (κ × α)) (k : κ)
    (v : α) : dget (dsetdefault d k v) k = some ((dget d k).getD v) := by
  unfold dsetdefault
  cases hd : dget d k with
  | none => rw [dget_append_right d _ k hd]; simp [dget]
  | some e => simp [hd]

theorem dget_dsetdefault_ne {κ : Type} [DecidableEq κ] {α : Type} (d : List (κ × α)) (k k' : κ)
    (v : α) (h : k' ≠ k) : dget (dsetdefault d k v) k' = dget d k' := by
  unfold dsetdefault
  cases hd : dget d k with
  | none =>
      induction d with
      | nil => simp [dget, Ne.symm h]
      | cons p rest ih =>
          obtain ⟨k0, v0⟩ := p
          by_cases h0 : k0 = k'
          · simp [dget, h0]
          · simp only [dget, if_neg h0] at *
            by_cases h1 : k0 = k
            · simp [dget, h1] at hd
            · simp only [dget, if_neg h1] at hd
              exact ih hd
  | some e => rfl

theorem dget_dsetdefaultUpdate_self {κ : Type} [DecidableEq κ]
    (d : List (κ × List (String × Py))) (k : κ) (kvs : List (String × Py)) :
    dget (dsetdefaultUpdate d k kvs) k = some (dupdate ((dget d k).getD []) kvs) := by
  unfold dsetdefaultUpdate
  cases hd : dget d k with
  | none => rw [dget_append_right d _ k hd]; simp [dget]
  | some e => simp [hd, dget_dset_self]

theorem dget_dsetdefaultUpdate_ne {κ : Type} [DecidableEq κ]
    (d : List (κ × List (String × Py))) (k k' : κ) (kvs : List (String × Py)) (h : k' ≠ k) :
    dget (dsetdefaultUpdate d k kvs) k' = dget d k' := by
  unfold dsetdefaultUpdate
  cases hd : dget d k with
  | none =>
      rw [show d ++ [(k, dupdate [] kvs)] = dsetdefault d k (dupdate [] kvs) by
        unfold dsetdefault; rw [hd]]
      exact dget_dsetdefault_ne d k k' _ h
  | some e => exact dget_dset_ne d k k' _ h

/-! ### Reduction of the tag dispatch at each concrete tag -/

theorem dispatchField_param (st : DocState) (a : Option String) (b : Option Body) :
    dispatchField st { tag := "param", arg := a, body := b } = parseParam st a b := rfl

theorem dispatchField_in (st : DocState) (a : Option String) (b : Option Body) :
    dispatchField st { tag := "in", arg := a, body := b } = parseIn st a b := rfl

theorem dispatchField_required (st : DocState) (a : Option String) (b : Option Body) :
    dispatchField st { tag := "required", arg := a, body := b } = parseRequired st a b := rfl

theorem dispatchField_rtype (st : DocState) (a : Option String) (b : Option Body) :
    dispatchField st { tag := "rtype", arg := a, body := b } = parseRtype st a b := rfl

theorem dispatchField_property (st : DocState) (a : Option String) (b : Option Body) :
    dispatchField st { tag := "property", arg := a, body := b } = parseProperty st a b := rfl

theorem dispatchField_ptype (st : DocState) (a : Option String) (b : Option Body) :
    dispatchField st { tag := "ptype", arg := a, body := b } = parsePtype st a b := rfl

theorem dispatchField_return (st : DocState) (a : Option String) (b : Option Body) :
    dispatchField st { tag := "return", arg := a, body := b } = parseReturn st a b := rfl

theorem parseEpytextPara_code (b : Body) : parseEpytextPara "code" (some b) = b.codeSpan := rfl

theorem parseEpytextPara_link (b : Body) : parseEpytextPara "link" (some b) = b.linkSpan := rfl

/-! ### C2 — the `required` tag -/

/-- C2 (counterexample): the claim says dispatching `required x: False`
(capitalised) yields `required == true`; in the code the membership test
`body in ['False', 'false']` makes it `false`. -/
theorem C2_required_False_counterexample :
    dget ((dget (dispatchField {} ⟨"required", some "x", some (bodyOf "False")⟩).params
        (some "x")).getD []) "required" = some (Py.bool false) ∧
    some (Py.bool false) ≠ some (Py.bool true) := by
  refine ⟨rfl, ?_⟩
  simp

/-- C2 (amended): dispatching a `required` field for `x` sets
`params[x].required` to `false` exactly when the stripped body plaintext
is the literal `"False"` or the literal `"false"`, and to `true` for
every other body (including an absent one); both case variants, not only
lowercase `"false"`, produce `false`. -/
theorem C2_required_literal_rule (st : DocState) (x : Option String) (body : Option Body) :
    dget ((dget (dispatchField st { tag := "required", arg := x, body := body }).params x).getD [])
        "required" =
      some (Py.bool (if getBody body = some "False" ∨ getBody body = some "false"
        then false else true)) := by
  rw [dispatchField_required]
  unfold parseRequired
  simp only [dget_dsetdefaultUpdate_self, Option.getD_some]
  unfold dupdate
  simp only [List.foldl_cons, List.foldl_nil]
  rw [dget_dset_self]

/-! ### C3 — `rtype` / `return` ordering -/

/-- C3: dispatching a `return` (or `raise`) field for code `c` appends
exactly one response descriptor; it carries
`responseModel = s` when `responseClasses` already maps `c` to the
(truthy) body `s` recorded by an earlier `rtype` field, and has no
`responseModel` key when no `rtype` for `c` was dispatched before; a
`rtype` field never touches the already-appended descriptors (no
back-patching). -/
theorem C3_rtype_return_ordering :
    (∀ (st : DocState) (c : String) (body : Option Body) (s : String),
      dget st.responseClasses c = some (some s) → s ≠ "" →
      (dispatchField st ⟨"return", some c, body⟩).responseMessages =
        st.responseMessages ++
          [[("code", Py.str c), ("message", Py.ofOpt (getBody body)),
            ("responseModel", Py.str s)]]) ∧
    (∀ (st : DocState) (c : String) (body : Option Body),
      dget st.responseClasses c = Option.none →
      (dispatchField st ⟨"return", some c, body⟩).responseMessages =
        st.responseMessages ++ [[("code", Py.str c), ("message", Py.ofOpt (getBody body))]]) ∧
    (∀ (st : DocState) (arg : Option String) (body : Option Body),
      (dispatchField st ⟨"rtype", arg, body⟩).responseMessages = st.responseMessages) := by
  refine ⟨?_, ?_, ?_⟩
  · intro st c body s h hs
    rw [dispatchField_return]
    unfold parseReturn
    simp only [h, if_neg hs]
    rfl
  · intro st c body h
    rw [dispatchField_return]
    unfold parseReturn
    simp only [h]
    rfl
  · intro st arg body
    rw [dispatchField_rtype]
    unfold parseRtype
    cases arg with
    | none => rfl
    | some a => by_cases h : a = "" <;> simp [h]

/-- C3 (witness): `@rtype 200: Widget` then `@return 200: OK` yields
`{code: "200", message: "OK", responseModel: "Widget"}`; a `@return 404`
with no prior `rtype` yields a descriptor with no `responseModel` key. -/
theorem C3_rtype_return_ordering_witness :
    (dispatchField rcSt ⟨"return", some "200", some (bodyOf "OK")⟩).responseMessages =
      [[("code", Py.str "200"), ("message", Py.str "OK"), ("responseModel", Py.str "Widget")]] ∧
    (dispatchField {} ⟨"return", some "404", some (bodyOf "gone")⟩).responseMessages =
      [[("code", Py.str "404"), ("message", Py.str "gone")]] := by
  constructor
  · exact C3_rtype_return_ordering.1 rcSt "200" (some (bodyOf "OK")) "Widget" rfl (by decide)
  · exact C3_rtype_return_ordering.2.1 {} "404" (some (bodyOf "gone")) rfl

/-! ### C6 — the `param` tag -/

/-- C6: dispatching a `param` field for `x` sets `params[x].name` to `x`
and `params[x].description` to the body plaintext, and sets
`params[x].paramType` to `"query"` exactly when no `paramType` was
present for `x` before (an existing `paramType`, e.g. the `"path"`
seeded from signature introspection or one set by a prior `in` field,
is kept unchanged). -/
theorem C6_param_upsert (st : DocState) (x : Option String) (body : Option Body) :
    dget ((dget (dispatchField st { tag := "param", arg := x, body := body }).params x).getD [])
        "name" = some (Py.ofOpt x) ∧
    dget ((dget (dispatchField st { tag := "param", arg := x, body := body }).params x).getD [])
        "description" = some (Py.ofOpt (getBody body)) ∧
    dget ((dget (dispatchField st { tag := "param", arg := x, body := body }).params x).getD [])
        "paramType" =
      some ((dget ((dget st.params x).getD []) "paramType").getD (Py.str "query")) := by
  rw [dispatchField_param]
  unfold parseParam
  simp only [dget_dsetdefaultUpdate_self]
  set pre : List (String × Py) := (dget st.params x).getD [] with hpre
  have hupd : dupdate pre [("name", Py.ofOpt x), ("description", Py.ofOpt (getBody body))] =
      dset (dset pre "name" (Py.ofOpt x)) "description" (Py.ofOpt (getBody body)) := by
    unfold dupdate
    simp only [List.foldl_cons, List.foldl_nil]
  rw [hupd]
  set e1 : List (String × Py) :=
    dset (dset pre "name" (Py.ofOpt x)) "description" (Py.ofOpt (getBody body)) with he1
  have hname : dget e1 "name" = some (Py.ofOpt x) := by
    rw [he1, dget_dset_ne _ _ _ _ (by decide), dget_dset_self]
  have hdesc : dget e1 "description" = some (Py.ofOpt (getBody body)) := by
    rw [he1, dget_dset_self]
  have hpt : dget e1 "paramType" = dget pre "paramType" := by
    rw [he1, dget_dset_ne _ _ _ _ (by decide), dget_dset_ne _ _ _ _ (by decide)]
  cases hcase : dget e1 "paramType" with
  | some v =>
      simp only [dget_dsetdefaultUpdate_self, ← hpre, hupd, Option.getD_some]
      refine ⟨hname, hdesc, ?_⟩
      rw [hcase, ← hpt, hcase]
      rfl
  | none =>
      simp only [dget_dset_self, Option.getD_some]
      refine ⟨?_, ?_, ?_⟩
      · rw [dget_dset_ne _ _ _ _ (by decide), hname]
      · rw [dget_dset_ne _ _ _ _ (by decide), hdesc]
      · rw [← hpt, hcase]
        rfl

/-! ### C7 / C10 — the `ptype` tag -/

/-- C7: for a `ptype` field whose body holds a `code` inline span equal
to `"list"` and a `link` inline span equal to `W`, dispatch sets
`properties[p].type = "array"` and `properties[p].items` to the
dictionary `{type: W}`; for a body with no `code` span it sets
`properties[p].type` to the (stripped) body plaintext. -/
theorem C7_ptype_spans :
    (∀ (st : DocState) (p : Option String) (b : Body) (W : String),
      b.codeSpan = some "list" → b.linkSpan = some W →
      dget ((dget (dispatchField st ⟨"ptype", p, some b⟩).properties p).getD [])
        "type" = some (Py.str "array") ∧
      dget ((dget (dispatchField st ⟨"ptype", p, some b⟩).properties p).getD [])
        "items" = some (Py.dict [("type", Py.str W)])) ∧
    (∀ (st : DocState) (p : Option String) (b : Body),
      b.codeSpan = Option.none →
      dget ((dget (dispatchField st ⟨"ptype", p, some b⟩).properties p).getD [])
        "type" = some (Py.str (pyStrip b.plaintext))) := by
  constructor
  · intro st p b W hc hl
    rw [dispatchField_ptype]
    unfold parsePtype
    rw [parseEpytextPara_code, parseEpytextPara_link, hc, hl]
    simp only [if_true]
    simp only [dget_dsetdefaultUpdate_self, Option.getD_some]
    unfold dupdate
    simp only [List.foldl_cons, List.foldl_nil]
    constructor
    · rw [dget_dset_ne _ _ _ _ (by decide), dget_dset_self]
    · rw [dget_dset_self]
      rfl
  · intro st p b hc
    rw [dispatchField_ptype]
    unfold parsePtype
    rw [parseEpytextPara_code, hc]
    simp only [dget_dsetdefaultUpdate_self, Option.getD_some]
    unfold dupdate
    simp only [List.foldl_cons, List.foldl_nil]
    rw [dget_dset_self]
    rfl

/-- C7 (witness): `@ptype p` with a `code` span `list` and a `link` span
`Widget` yields `type == "array"` and `items == {type: "Widget"}`;
`@ptype q` with plain body `int` yields `type == "int"`. -/
theorem C7_ptype_spans_witness :
    (dget ((dget (dispatchField {} ⟨"ptype", some "p", some listWidgetBody⟩).properties
        (some "p")).getD []) "type" = some (Py.str "array") ∧
     dget ((dget (dispatchField {} ⟨"ptype", some "p", some listWidgetBody⟩).properties
        (some "p")).getD []) "items" = some (Py.dict [("type", Py.str "Widget")])) ∧
    dget ((dget (dispatchField {} ⟨"ptype", some "q", some (bodyOf "int")⟩).properties
        (some "q")).getD []) "type" = some (Py.str "int") :=
  ⟨C7_ptype_spans.1 {} (some "p") listWidgetBody "Widget" rfl rfl,
   C7_ptype_spans.2 {} (some "q") (bodyOf "int") rfl⟩

/-- C10: a `ptype` field whose body holds a `code` inline span different
from `"list"` is dropped entirely: the dispatch returns the accumulator
unchanged, so in particular the `properties` mapping is untouched. -/
theorem C10_ptype_frame (st : DocState) (p : Option String) (b : Body) (c : String)
    (hc : b.codeSpan = some c) (hne : c ≠ "list") :
    dispatchField st ⟨"ptype", p, some b⟩ = st ∧
    (dispatchField st ⟨"ptype", p, some b⟩).properties = st.properties := by
  have h : dispatchField st ⟨"ptype", p, some b⟩ = st := by
    rw [dispatchField_ptype]
    unfold parsePtype
    rw [parseEpytextPara_code, hc]
    simp [hne]
  exact ⟨h, by rw [h]⟩

/-- C10 (witness): a `ptype` body with a `code` span `dict` (not `list`)
leaves the whole accumulator unchanged. -/
theorem C10_ptype_frame_witness :
    dispatchField {} ⟨"ptype", some "p", some dictSpanBody⟩ = ({} : DocState) ∧
    (dispatchField {} ⟨"ptype", some "p", some dictSpanBody⟩).properties =
      ({} : DocState).properties :=
  C10_ptype_frame {} (some "p") dictSpanBody "dict" rfl (by decide)

/-! ### C1 / C5 — the `operation` decorator -/

/-- C1 (amended): once `self.func` is set, calling the `operation`
instance again — in particular applying the decorator again to the first
decoration's wrapper — does not return that wrapper: it forwards the
call to the stored original callable (`self.func(*args, **kwds)`) and
returns its result, leaving the instance state and the heap unchanged,
so the descriptor is parsed exactly once, guarded by `self.func`. -/
theorem C1_second_call_forwards (st : OpState) (w : World) (args : List Py) (fid : Nat)
    (f : FuncObj) (h : st.func = some fid) (hf : dget w.heap fid = some f) :
    operationCall st w args = (st, w, Except.ok (f.call args)) := by
  unfold operationCall
  simp only [h, hf]

/-- C1 (witness for the amended claim): with `f0` already stored, a call
with argument `7` returns `f0`'s value `42` and changes nothing. -/
theorem C1_second_call_forwards_witness :
    operationCall { func := some 0 } w0 [Py.int 7] =
      ({ func := some 0 }, w0, Except.ok (Py.int 42)) :=
  C1_second_call_forwards { func := some 0 } w0 [Py.int 7] 0 f0 rfl rfl

/-- C1 (counterexample): decorating `f0` returns the wrapper `Py.func 1`;
applying the same decorator instance to that wrapper returns
`f0(wrapper) = 42`, which is not the first decoration's wrapper —
re-decoration is not the identity-returning no-op the claim states. -/
theorem C1_redecoration_counterexample :
    (operationCall {} w0 [Py.func 0]).2.2 = Except.ok (Py.func 1) ∧
    (operationCall (operationCall {} w0 [Py.func 0]).1 (operationCall {} w0 [Py.func 0]).2.1
        [Py.func 1]).2.2 = Except.ok (Py.int 42) ∧
    (Except.ok (Py.int 42) : Except String Py) ≠ Except.ok (Py.func 1) := by
  refine ⟨rfl, rfl, ?_⟩
  intro h
  injection h with h1
  exact Py.noConfusion h1

/-- C5: decorating a callable `f` stores a wrapper in the heap and
returns a reference to it; invoking that wrapper on any argument list is
exactly invoking `f` on the same arguments (same result, nothing else),
and the built `OperationDescriptor` state is readable from the wrapper's
`rest_api` attribute without any call to `f`. -/
theorem C5_wrapper_transparency (st : OpState) (w : World) (f : FuncObj) (fid : Nat)
    (rest : List Py) (h0 : st.func = Option.none) (hf : dget w.heap fid = some f)
    (hfresh : dget w.heap w.next = Option.none) :
    (operationCall st w (Py.func fid :: rest)).2.2 = Except.ok (Py.func w.next) ∧
    ∃ wobj : FuncObj,
      dget (operationCall st w (Py.func fid :: rest)).2.1.heap w.next = some wobj ∧
      (∀ vs : List Py, wobj.call vs = f.call vs) ∧
      wobj.rest_api = some (operationCall st w (Py.func fid :: rest)).1 := by
  unfold operationCall
  simp only [h0, hf]
  refine ⟨trivial, ⟨mkWrapper (opParseOperation st fid f) f, ?_, fun vs => rfl, rfl⟩⟩
  rw [dget_append_right _ _ _ hfresh]
  simp [dget]

/-- C5 (witness): decorating `f0` in the heap `w0` yields wrapper id `1`,
extensionally equal to `f0` and carrying the descriptor. -/
theorem C5_wrapper_transparency_witness :
    (operationCall {} w0 [Py.func 0]).2.2 = Except.ok (Py.func w0.next) ∧
    ∃ wobj : FuncObj,
      dget (operationCall {} w0 [Py.func 0]).2.1.heap w0.next = some wobj ∧
      (∀ vs : List Py, wobj.call vs = f0.call vs) ∧
      wobj.rest_api = some (operationCall {} w0 [Py.func 0]).1 :=
  C5_wrapper_transparency {} w0 f0 0 [] rfl rfl rfl

/-! ### C4 / C9 — the `model` decorator and the registry -/

theorem seedRequired_foldl_cls : ∀ (l : List String) (s : ModelState),
    (l.foldl seedRequired s).cls = s.cls
  | [], _ => rfl
  | _ :: l, s => seedRequired_foldl_cls l (seedRequired s _)

theorem seedDefault_foldl_cls : ∀ (l : List (String × Py)) (s : ModelState),
    (l.foldl seedDefault s).cls = s.cls
  | [], _ => rfl
  | _ :: l, s => seedDefault_foldl_cls l (seedDefault s _)

theorem modelParseArgs_ok_cls (st : ModelState) (spec : Argspec) (st1 : ModelState)
    (h : modelParseArgs st spec = Except.ok st1) : st1.cls = st.cls := by
  unfold modelParseArgs at h
  by_cases hs : "self" ∈ spec.args
  · rw [if_pos hs] at h
    injection h with h1
    subst h1
    rw [seedDefault_foldl_cls, seedRequired_foldl_cls]
  · rw [if_neg hs] at h
    cases h

theorem modelParseModel_ok (st : ModelState) (reg : List ModelState) (cls : ClassObj)
    (st1 : ModelState) (reg1 : List ModelState) (u : Unit)
    (h : modelParseModel st reg cls = (st1, reg1, Except.ok u)) :
    reg1 = reg ++ [st1] ∧ st1.cls = some cls := by
  unfold modelParseModel at h
  by_cases hi : cls.hasInit = true
  · rw [if_pos hi] at h
    cases hspec : cls.initSpec with
    | error e =>
        simp only [hspec] at h
        simp at h
    | ok spec =>
        simp only [hspec] at h
        cases hargs : modelParseArgs { st with id := some cls.name, cls := some cls } spec with
        | error e =>
            simp only [hargs] at h
            simp at h
        | ok st2 =>
            simp only [hargs] at h
            have hcls2 : st2.cls = some cls := modelParseArgs_ok_cls _ _ _ hargs
            simp only [Prod.mk.injEq] at h
            obtain ⟨h1, h2, -⟩ := h
            subst h1
            exact ⟨h2.symm, hcls2⟩
  · rw [if_neg hi] at h
    simp only [Prod.mk.injEq] at h
    obtain ⟨h1, h2, -⟩ := h
    subst h1
    exact ⟨h2.symm, rfl⟩

/-- C4: a first successful invocation of a `model` decorator instance on
a class appends exactly one descriptor to the registry, and any further
invocation of the same instance is stopped by the built flag
`self.cls`: it returns the stored class and leaves both the instance
state and the registry exactly as they were (nothing is appended
again). -/
theorem C4_model_registered_once (st : ModelState) (reg : List ModelState) (cls : ClassObj)
    (h0 : st.cls = Option.none)
    (hok : (modelCall st reg [cls]).2.2 = Except.ok cls) :
    (modelCall st reg [cls]).2.1 = reg ++ [(modelCall st reg [cls]).1] ∧
    ∀ args2 : List ClassObj,
      modelCall (modelCall st reg [cls]).1 (modelCall st reg [cls]).2.1 args2 =
        ((modelCall st reg [cls]).1, (modelCall st reg [cls]).2.1, Except.ok cls) := by
  unfold modelCall at hok ⊢
  simp only [h0] at hok ⊢
  rcases hpm : modelParseModel st reg cls with ⟨st1, reg1, r⟩
  rw [hpm] at hok
  cases r with
  | error e => simp at hok
  | ok u =>
      obtain ⟨hreg, hcls⟩ := modelParseModel_ok st reg cls st1 reg1 u hpm
      refine ⟨hreg, fun args2 => ?_⟩
      show modelCall st1 reg1 args2 = (st1, reg1, Except.ok cls)
      unfold modelCall
      rw [hcls]

/-- C4 (witness): decorating `widgetClass` once appends one entry to the
empty registry; every further call of the instance returns the class and
leaves state and registry unchanged. -/
theorem C4_model_registered_once_witness :
    (modelCall {} [] [widgetClass]).2.1 = [] ++ [(modelCall {} [] [widgetClass]).1] ∧
    ∀ args2 : List ClassObj,
      modelCall (modelCall {} [] [widgetClass]).1 (modelCall {} [] [widgetClass]).2.1 args2 =
        ((modelCall {} [] [widgetClass]).1, (modelCall {} [] [widgetClass]).2.1,
          Except.ok widgetClass) :=
  C4_model_registered_once {} [] widgetClass rfl rfl

/-- C9: when constructor introspection fails during model decoration —
`getargspec` itself raises, or the parameter list lacks the receiver
`self` — the error propagates out of the decorator call and the model
registry is left unchanged: no descriptor is appended for that class. -/
theorem modelParseModel_initSpec_error (st : ModelState) (reg : List ModelState)
    (cls : ClassObj) (msg : String) (hi : cls.hasInit = true)
    (hspec : cls.initSpec = Except.error msg) :
    modelParseModel st reg cls =
      ({ st with id := some cls.name, cls := some cls }, reg, Except.error msg) := by
  simp only [modelParseModel, hi, hspec, if_true]

theorem modelParseModel_noself_error (st : ModelState) (reg : List ModelState)
    (cls : ClassObj) (spec : Argspec) (hi : cls.hasInit = true)
    (hspec : cls.initSpec = Except.ok spec) (hself : "self" ∉ spec.args) :
    modelParseModel st reg cls =
      ({ st with id := some cls.name, cls := some cls }, reg,
        Except.error "ValueError: self not in list") := by
  simp only [modelParseModel, hi, hspec, modelParseArgs, hself, if_true, if_false]

theorem C9_introspection_failure :
    (∀ (st : ModelState) (reg : List ModelState) (cls : ClassObj) (msg : String),
      st.cls = Option.none → cls.hasInit = true → cls.initSpec = Except.error msg →
      (modelCall st reg [cls]).2.2 = Except.error msg ∧
      (modelCall st reg [cls]).2.1 = reg) ∧
    (∀ (st : ModelState) (reg : List ModelState) (cls : ClassObj) (spec : Argspec),
      st.cls = Option.none → cls.hasInit = true → cls.initSpec = Except.ok spec →
      "self" ∉ spec.args →
      (∃ e, (modelCall st reg [cls]).2.2 = Except.error e) ∧
      (modelCall st reg [cls]).2.1 = reg) := by
  constructor
  · intro st reg cls msg h0 hi hspec
    unfold modelCall
    simp only [h0, modelParseModel_initSpec_error st reg cls msg hi hspec]
    exact ⟨trivial, trivial⟩
  · intro st reg cls spec h0 hi hspec hself
    unfold modelCall
    simp only [h0, modelParseModel_noself_error st reg cls spec hi hspec hself]
    exact ⟨⟨_, rfl⟩, trivial⟩

/-- C9 (witness): decorating `badClass` propagates the introspection
error and appends nothing to the registry. -/
theorem C9_introspection_failure_witness :
    (modelCall {} [] [badClass]).2.2 = Except.error "TypeError: unsupported callable type" ∧
    (modelCall {} [] [badClass]).2.1 = ([] : List ModelState) :=
  C9_introspection_failure.1 {} [] badClass "TypeError: unsupported callable type" rfl rfl rfl

/-! ### C8 — constructor introspection seeding -/

theorem seedRequired_foldl_required : ∀ (l : List String) (s : ModelState),
    (l.foldl seedRequired s).required = s.required ++ l
  | [], s => by simp
  | a :: l, s => by
      rw [List.foldl_cons, seedRequired_foldl_required l (seedRequired s a)]
      simp [seedRequired]

theorem seedRequired_foldl_props_some : ∀ (l : List String) (s : ModelState) (a : Option String)
    (e : List (String × Py)), dget s.ds.properties a = some e →
    dget (l.foldl seedRequired s).ds.properties a = some e
  | [], _, _, _, h => h
  | b :: l, s, a, e, h => by
      rw [List.foldl_cons]
      apply seedRequired_foldl_props_some l
      show dget (dsetdefault s.ds.properties (some b) [("type", Py.str "string")]) a = some e
      by_cases hab : a = some b
      · subst hab
        rw [dget_dsetdefault_self, h]
        rfl
      · rw [dget_dsetdefault_ne _ _ _ _ hab]
        exact h

theorem seedRequired_foldl_props_new : ∀ (l : List String) (s : ModelState) (a : String),
    a ∈ l → dget s.ds.properties (some a) = Option.none →
    dget (l.foldl seedRequired s).ds.properties (some a) = some [("type", Py.str "string")]
  | [], _, _, hmem, _ => absurd hmem (List.not_mem_nil _)
  | b :: l, s, a, hmem, h => by
      rw [List.foldl_cons]
      by_cases hab : a = b
      · subst hab
        apply seedRequired_foldl_props_some l
        show dget (dsetdefault s.ds.properties (some a) [("type", Py.str "string")]) (some a) =
          some [("type", Py.str "string")]
        rw [dget_dsetdefault_self, h]
        rfl
      · have hmem2 : a ∈ l := List.mem_of_ne_of_mem hab hmem
        apply seedRequired_foldl_props_new l _ a hmem2
        show dget (dsetdefault s.ds.properties (some b) [("type", Py.str "string")]) (some a) =
          Option.none
        rw [dget_dsetdefault_ne _ _ _ _ (fun hh => hab (Option.some.inj hh))]
        exact h

theorem seedDefault_foldl_props_some : ∀ (l : List (String × Py)) (s : ModelState)
    (a : Option String) (e : List (String × Py)), dget s.ds.properties a = some e →
    dget (l.foldl seedDefault s).ds.properties a = some e
  | [], _, _, _, h => h
  | p :: l, s, a, e, h => by
      rw [List.foldl_cons]
      apply seedDefault_foldl_props_some l
      show dget (dsetdefault s.ds.properties (some p.1)
        [("type", Py.str "string"), ("default", p.2)]) a = some e
      by_cases hab : a = some p.1
      · subst hab
        rw [dget_dsetdefault_self, h]
        rfl
      · rw [dget_dsetdefault_ne _ _ _ _ hab]
        exact h

theorem seedDefault_foldl_props_new : ∀ (l : List (String × Py)) (s : ModelState)
    (a : String) (v : Py), (a, v) ∈ l → (l.map Prod.fst).Nodup →
    dget s.ds.properties (some a) = Option.none →
    dget (l.foldl seedDefault s).ds.properties (some a) =
      some [("type", Py.str "string"), ("default", v)]
  | [], _, _, _, hmem, _, _ => absurd hmem (List.not_mem_nil _)
  | p :: l, s, a, v, hmem, hnodup, h => by
      rw [List.foldl_cons]
      rw [List.map_cons, List.nodup_cons] at hnodup
      rcases List.mem_cons.mp hmem with heq | htail
      · subst heq
        apply seedDefault_foldl_props_some l
        show dget (dsetdefault s.ds.properties (some a)
          [("type", Py.str "string"), ("default", v)]) (some a) =
          some [("type", Py.str "string"), ("default", v)]
        rw [dget_dsetdefault_self, h]
        rfl
      · have hab : a ≠ p.1 := by
          intro hh
          exact hnodup.1 (hh ▸ (List.mem_map_of_mem Prod.fst htail))
        apply seedDefault_foldl_props_new l _ a v htail hnodup.2
        show dget (dsetdefault s.ds.properties (some p.1)
          [("type", Py.str "string"), ("default", p.2)]) (some a) = Option.none
        rw [dget_dsetdefault_ne _ _ _ _ (fun hh => hab (Option.some.inj hh))]
        exact h

theorem seedDefault_foldl_required : ∀ (l : List (String × Py)) (s : ModelState),
    (l.foldl seedDefault s).required = s.required
  | [], _ => rfl
  | p :: l, s => seedDefault_foldl_required l (seedDefault s p)

theorem seedRequired_foldl_props_not_mem : ∀ (l : List String) (s : ModelState) (a : String),
    a ∉ l →
    dget (l.foldl seedRequired s).ds.properties (some a) = dget s.ds.properties (some a)
  | [], _, _, _ => rfl
  | b :: l, s, a, hmem => by
      rw [List.foldl_cons]
      have hab : a ≠ b := fun hh => hmem (hh ▸ List.mem_cons_self b l)
      rw [seedRequired_foldl_props_not_mem l _ a (fun hh => hmem (List.mem_cons_of_mem b hh))]
      show dget (dsetdefault s.ds.properties (some b) [("type", Py.str "string")]) (some a) = _
      rw [dget_dsetdefault_ne _ _ _ _ (fun hh => hab (Option.some.inj hh))]

theorem modelParseArgs_self_cons (st : ModelState) (ps : List String) (vs : List Py)
    (hlen : vs.length ≤ ps.length) :
    modelParseArgs st { args := "self" :: ps, defaults := vs } =
      Except.ok (((ps.drop (ps.length - vs.length)).zip vs).foldl seedDefault
        ((ps.take (ps.length - vs.length)).foldl seedRequired st)) := by
  have herase : ("self" :: ps).erase "self" = ps := by
    simp [List.erase_cons_head]
  have hdefs : (if vs.isEmpty then []
      else (ps.drop (ps.length - vs.length)).zip vs) =
      (ps.drop (ps.length - vs.length)).zip vs := by
    cases vs <;> simp
  have hziplen : ((ps.drop (ps.length - vs.length)).zip vs).length = vs.length := by
    rw [List.length_zip, List.length_drop, Nat.sub_sub_self hlen, Nat.min_self]
  simp only [modelParseArgs, List.mem_cons, herase, hdefs, hziplen]
  rw [if_pos (Or.inl trivial)]

/-- C8: introspecting a constructor `__init__(self, a1..an, d1=v1..dk=vk)`
appends `a1..an` (the names with no default) to the `required` list and
seeds a `{type: "string"}` property for each of them and a
`{type: "string", default: vi}` property for each defaulted name; a
documentation `ptype` field dispatched afterwards for such a name
overwrites the seeded `type` (keeping `default`), and a `property`
field adds the `description` to the seeded entry. -/
theorem C8_ctor_introspection_seeding :
    (∀ (st : ModelState) (ps : List String) (vs : List Py) (st1 : ModelState),
      vs.length ≤ ps.length → ps.Nodup →
      (∀ a ∈ ps, dget st.ds.properties (some a) = Option.none) →
      modelParseArgs st { args := "self" :: ps, defaults := vs } = Except.ok st1 →
      st1.required = st.required ++ ps.take (ps.length - vs.length) ∧
      (∀ a ∈ ps.take (ps.length - vs.length),
        dget st1.ds.properties (some a) = some [("type", Py.str "string")]) ∧
      (∀ (a : String) (v : Py), (a, v) ∈ (ps.drop (ps.length - vs.length)).zip vs →
        dget st1.ds.properties (some a) =
          some [("type", Py.str "string"), ("default", v)])) ∧
    (∀ (st : DocState) (p : String) (b : Body) (v : Py),
      b.codeSpan = Option.none →
      dget st.properties (some p) = some [("type", Py.str "string"), ("default", v)] →
      dget (dispatchField st ⟨"ptype", some p, some b⟩).properties (some p) =
        some [("type", Py.str (pyStrip b.plaintext)), ("default", v)]) ∧
    (∀ (st : DocState) (p : String) (b : Option Body) (v : Py),
      dget st.properties (some p) = some [("type", Py.str "string"), ("default", v)] →
      dget (dispatchField st ⟨"property", some p, b⟩).properties (some p) =
        some [("type", Py.str "string"), ("default", v),
              ("description", Py.ofOpt (getBody b))]) := by
  refine ⟨?_, ?_, ?_⟩
  · intro st ps vs st1 hlen hnodup hfresh hok
    rw [modelParseArgs_self_cons st ps vs hlen] at hok
    injection hok with hok
    subst hok
    have hdroplen : (ps.drop (ps.length - vs.length)).length = vs.length := by
      rw [List.length_drop, Nat.sub_sub_self hlen]
    have hkeys : (((ps.drop (ps.length - vs.length)).zip vs).map Prod.fst).Nodup := by
      rw [List.map_fst_zip _ _ (le_of_eq hdroplen)]
      exact hnodup.sublist (List.drop_sublist _ _)
    have hdisj : ∀ a ∈ ps.drop (ps.length - vs.length),
        a ∉ ps.take (ps.length - vs.length) := by
      intro a hd ht
      have hnd : (ps.take (ps.length - vs.length) ++ ps.drop (ps.length - vs.length)).Nodup := by
        rw [List.take_append_drop]
        exact hnodup
      exact (List.nodup_append.mp hnd).2.2 ht hd
    refine ⟨?_, ?_, ?_⟩
    · rw [seedDefault_foldl_required, seedRequired_foldl_required]
    · intro a ha
      apply seedDefault_foldl_props_some
      exact seedRequired_foldl_props_new _ _ _ ha (hfresh a (List.take_subset _ _ ha))
    · intro a v hav
      have had : a ∈ ps.drop (ps.length - vs.length) := (List.of_mem_zip hav).1
      apply seedDefault_foldl_props_new _ _ _ _ hav hkeys
      rw [seedRequired_foldl_props_not_mem _ _ _ (hdisj a had)]
      exact hfresh a (List.drop_subset _ _ had)
  · intro st p b v hc hseed
    rw [dispatchField_ptype]
    unfold parsePtype
    rw [parseEpytextPara_code, hc]
    show dget (dsetdefaultUpdate st.properties (some p)
      [("type", Py.ofOpt (getBody (some b)))]) (some p) =
      some [("type", Py.str (pyStrip b.plaintext)), ("default", v)]
    rw [dget_dsetdefaultUpdate_self, hseed]
    rfl
  · intro st p b v hseed
    rw [dispatchField_property]
    unfold parseProperty
    show dget (dsetdefaultUpdate st.properties (some p)
      [("description", Py.ofOpt (getBody b))]) (some p) =
      some [("type", Py.str "string"), ("default", v),
            ("description", Py.ofOpt (getBody b))]
    rw [dget_dsetdefaultUpdate_self, hseed]
    rfl

/-- C8 (witness): `__init__(self, a, b=5)` yields `required == ["a"]`, a
property `a` of type `"string"` and a property `b` of type `"string"`
with `default == 5`; a later `@ptype b: int` overwrites the seeded type
and keeps the default. -/
theorem C8_ctor_introspection_seeding_witness :
    (∃ st1 : ModelState,
      modelParseArgs {} { args := ["self", "a", "b"], defaults := [Py.int 5] } =
        Except.ok st1 ∧
      st1.required = ["a"] ∧
      dget st1.ds.properties (some "a") = some [("type", Py.str "string")] ∧
      dget st1.ds.properties (some "b") =
        some [("type", Py.str "string"), ("default", Py.int 5)]) ∧
    dget (dispatchField seededSt ⟨"ptype", some "b", some (bodyOf "int")⟩).properties
        (some "b") = some [("type", Py.str "int"), ("default", Py.int 5)] := by
  constructor
  · obtain ⟨h1, h2, h3⟩ := C8_ctor_introspection_seeding.1 {} ["a", "b"] [Py.int 5] _
      (by decide) (by decide) (fun a _ => rfl) rfl
    refine ⟨_, rfl, ?_, ?_, ?_⟩
    · simpa using h1
    · simpa using h2 "a" (by decide)
    · simpa using h3 "b" (Py.int 5) (by simp)
  · exact C8_ctor_introspection_seeding.2.1 seededSt "b" (bodyOf "int") (Py.int 5) rfl rfl

end TornadoSwagger
